import Mathlib

/-!
# Verification of the metabin core (src/metabin/__init__.py)

Shallow embedding of the metabin module: the type-code translation table
(`imhex_keywords`), the translator (`chars_to_imhex`), the recording packer
(`Packable.pack`), rendering (`Packable.meta_to_imhex`, `Packable.to_imhex`),
merging (`Packable.append`), and the named containers (`MetaBinFunction`,
`MetaBinStruct`).

Modelling decisions, each noted at the definition it concerns:
* Python exceptions are modelled by an explicit `PyError` sum returned in
  `Except` / carried in result records together with the mutated state, since
  Python mutations performed before a `raise` survive the exception.
* `struct.pack` is an external collaborator (the Python standard library);
  it is modelled for the fixed-width integer codes and the char code `s`
  that this module's translator covers, on an LP64 little-endian platform
  (the platform CPython runs on here).  Float codes and pattern shapes the
  translator rejects are modelled as opaque struct errors; no theorem below
  depends on their real behaviour.
* The caller name that the source recovers by call-stack introspection is
  threaded as an explicit `caller_name` argument.
-/

namespace Metabin

/-- Python values that flow through this core: `None`, `int`, `str`, and
`bytes` (a byte list).  Floats never appear in the properties checked here. -/
inductive Value where
  | pyNone
  | pyInt (i : Int)
  | pyStr (s : String)
  | pyBytes (b : List Nat)
deriving DecidableEq, Repr

/-- Python exceptions raised by this core:
`keyError` from a dict lookup miss (the spec's UnknownTypeCode),
`notImplementedError` from the translator's catch-all (UnsupportedPattern),
`structError` from `struct.pack` and its re-raise (PackingError),
`typeError` from `Packable.append`'s name check (NamingConflict), and
`attributeError` from reading an attribute an object does not have. -/
inductive PyError where
  | keyError (k : Char)
  | notImplementedError (pattern : List Char)
  | structError (msg : String)
  | typeError (msg : String)
  | attributeError (attr : String)
deriving DecidableEq, Repr

/-- The `imhex_keywords` dict: Python struct codes to ImHex Pattern Language
tokens.  A lookup returns `none` exactly when the Python dict raises
`KeyError`.  Keys are the single characters of the source dict. -/
def imhex_keywords : Char → Option String
  | '>' => some "be"
  | '<' => some "le"
  | 'B' => some "u8"
  | 'b' => some "s8"
  | 'H' => some "u16"
  | 'h' => some "s16"
  | 'i' => some "i32"
  | 'I' => some "u32"
  | 'l' => some "i32"
  | 'L' => some "u32"
  | 'q' => some "s64"
  | 'Q' => some "u64"
  | 's' => some "i32"
  | 'S' => some "u32"
  | 'e' => some "f16"
  | 'f' => some "f32"
  | 'd' => some "f64"
  | _ => none

/-- `chars_to_imhex` on the character list of the pattern string.
Mirrors the source: a length-1 pattern is looked up directly (KeyError on a
miss); a length-2 pattern whose first character is `>` or `<` joins the two
lookups with one space (KeyError on a miss, first lookup evaluated first);
every other shape raises `NotImplementedError` carrying the pattern. -/
def charsToImhexL : List Char → Except PyError String
  | [c] =>
    match imhex_keywords c with
    | some t => .ok t
    | none => .error (.keyError c)
  | [c0, c1] =>
    if c0 = '>' ∨ c0 = '<' then
      match imhex_keywords c0 with
      | none => .error (.keyError c0)
      | some t0 =>
        match imhex_keywords c1 with
        | none => .error (.keyError c1)
        | some t1 => .ok (t0 ++ " " ++ t1)
    else .error (.notImplementedError [c0, c1])
  | cs => .error (.notImplementedError cs)

/-- `chars_to_imhex` on a Python string. -/
def chars_to_imhex (s : String) : Except PyError String :=
  charsToImhexL s.data

/-- Little-endian byte list of `v` over `width` bytes. -/
def leBytes (width : Nat) (v : Nat) : List Nat :=
  (List.range width).map (fun i => v / 256 ^ i % 256)

/-- Byte list of `v` over `width` bytes in the requested order. -/
def orderBytes (bigEndian : Bool) (width : Nat) (v : Nat) : List Nat :=
  if bigEndian then (leBytes width v).reverse else leBytes width v

/-- Width in bytes and signedness of the fixed-width integer struct codes.
In native mode (no `<`/`>` prefix) the C `long` codes `l`/`L` are 8 bytes on
the LP64 platform modelled here; in standard mode they are 4. -/
def intCodeInfo (native : Bool) : Char → Option (Nat × Bool)
  | 'B' => some (1, false)
  | 'b' => some (1, true)
  | 'H' => some (2, false)
  | 'h' => some (2, true)
  | 'i' => some (4, true)
  | 'I' => some (4, false)
  | 'l' => some (if native then 8 else 4, true)
  | 'L' => some (if native then 8 else 4, false)
  | 'q' => some (8, true)
  | 'Q' => some (8, false)
  | _ => none

/-- One-code `struct.pack`, after the endianness prefix has been parsed.
Integer codes check the value is an `int` within the code's range and emit
two's-complement bytes; `s` (char bytes, default count 1) emits exactly one
byte — the first byte of a `bytes` value, or a NUL pad byte when it is empty.
`S` is not a Python struct code at all and is a format error.  Float codes
(`e`, `f`, `d`) are outside this model and return an opaque struct error;
no property proved here evaluates them. -/
def structPackCode (native : Bool) (bigEndian : Bool) (c : Char) (v : Value) :
    Except PyError (List Nat) :=
  match intCodeInfo native c with
  | some (w, signed) =>
    match v with
    | .pyInt i =>
      if signed then
        if -(2 ^ (8 * w - 1) : Int) ≤ i ∧ i < (2 ^ (8 * w - 1) : Int) then
          .ok (orderBytes bigEndian w (i % (2 ^ (8 * w) : Int)).toNat)
        else .error (.structError "argument out of range")
      else
        if 0 ≤ i ∧ i < (2 ^ (8 * w) : Int) then
          .ok (orderBytes bigEndian w i.toNat)
        else .error (.structError "argument out of range")
    | _ => .error (.structError "required argument is not an integer")
  | none =>
    match c with
    | 's' =>
      match v with
      | .pyBytes b => .ok [b.headD 0]
      | _ => .error (.structError "argument for s must be a bytes object")
    | 'e' => .error (.structError "float code outside model")
    | 'f' => .error (.structError "float code outside model")
    | 'd' => .error (.structError "float code outside model")
    | _ => .error (.structError "bad char in struct format")

/-- `struct.pack(pattern, value)` for the pattern shapes this module's
translator accepts: one bare code (native mode, little-endian machine) or one
code behind a `<`/`>` prefix (standard sizes).  Other shapes (repeat counts,
multi-code formats) are outside the model and return an opaque struct error;
no property proved here evaluates them. -/
def structPack : List Char → Value → Except PyError (List Nat)
  | [c], v => structPackCode true false c v
  | ['<', c], v => structPackCode false false c v
  | ['>', c], v => structPackCode false true c v
  | _, _ => .error (.structError "pattern shape outside model")

/-- One FieldRecord: the dict `{'pattern', 'value', 'name', 'count'}` that
`Packable.pack` appends to `metas`. -/
structure Meta where
  pattern : String
  value : Value
  name : String
  count : Option Int
deriving DecidableEq, Repr

/-- The escape applied to a tooltip value: `str.replace("\n", "\\n")`. -/
def escapeNewlines (s : String) : String :=
  ⟨s.data.foldr (fun c acc => if c = '\n' then '\\' :: 'n' :: acc else c :: acc) []⟩

/-- `MetaBinFunction`: `__init__` sets `name = None` and `metas = []`.
The object therefore always carries a `name` attribute (possibly `None`). -/
structure MetaBinFunction where
  name : Option String
  metas : List Meta
deriving DecidableEq, Repr

/-- `MetaBinStruct`: `__init__` sets `name = None` and `metas = []`. -/
structure MetaBinStruct where
  name : Option String
  metas : List String
deriving DecidableEq, Repr

/-- `Packable.__init__`: the four attributes the constructor assigns, and the
only attributes any core operation ever assigns. -/
structure Packable where
  chunks : List (List Nat)
  metas : List Meta
  bad_keys : List Value
  exceptions : List PyError
deriving DecidableEq, Repr

/-- A freshly constructed `Packable()`. -/
def Packable.init : Packable := ⟨[], [], [], []⟩

/-- The values `Packable` attribute lookup can produce.  `metaAttr` exists
only so that `to_imhex` can be written against a successful lookup; no lookup
ever produces it. -/
inductive AttrValue where
  | chunksAttr (c : List (List Nat))
  | metasAttr (m : List Meta)
  | badKeysAttr (b : List Value)
  | exceptionsAttr (e : List PyError)
  | metaAttr (m : Meta)
deriving DecidableEq, Repr

/-- Python attribute lookup on a `Packable`: exactly the four attributes
assigned by `__init__` resolve; any other name raises `AttributeError`
(modelled as `none`). -/
def Packable.getattr (p : Packable) : String → Option AttrValue
  | "chunks" => some (.chunksAttr p.chunks)
  | "metas" => some (.metasAttr p.metas)
  | "bad_keys" => some (.badKeysAttr p.bad_keys)
  | "exceptions" => some (.exceptionsAttr p.exceptions)
  | _ => none

/-- `Packable.meta_to_imhex`: renders one FieldRecord.  The translated type
token and the name come first (a translation failure propagates before
anything else); a present `count` appends `[count]`; a present `value`
appends the tooltip ` @ "<value with newlines escaped>"`.  The escape is
`value.replace("\n", "\\n")`, an attribute of `str` only: an `int` value
raises `AttributeError` and a `bytes` value raises `TypeError` (Python 3
`bytes.replace` rejects `str` arguments). -/
def Packable.meta_to_imhex (meta : Meta) : Except PyError String := do
  let t ← chars_to_imhex meta.pattern
  let line := t ++ " " ++ meta.name
  let line :=
    match meta.count with
    | some c => line ++ "[" ++ toString c ++ "]"
    | none => line
  match meta.value with
  | .pyNone => .ok (line ++ ";")
  | .pyStr s => .ok (line ++ " @ \"" ++ escapeNewlines s ++ "\";")
  | .pyInt _ => .error (.attributeError "replace")
  | .pyBytes _ => .error (.typeError "a bytes-like object is required, not str")

/-- `Packable.to_imhex`: the source body is
`Packable.meta_to_imhex(self.meta)` — it reads the singular attribute
`meta`, which no constructor or operation assigns, so the lookup decides
everything. -/
def Packable.to_imhex (p : Packable) : Except PyError String :=
  match p.getattr "meta" with
  | some (.metaAttr m) => Packable.meta_to_imhex m
  | some _ => .error (.typeError "meta is not a field record")
  | none => .error (.attributeError "meta")

/-- Result of a mutating call: the state after the call (Python mutations
made before a `raise` survive it) and the exception, if one was raised. -/
structure PackResult where
  state : Packable
  error : Option PyError
deriving DecidableEq, Repr

/-- The message of the re-raised struct error:
`"{} (packing error in {}, name={}):".format(ex, caller_name, name)`. -/
def packingErrorMessage (ex caller_name name : String) : String :=
  ex ++ " (packing error in " ++ caller_name ++ ", name=" ++ name ++ "):"

/-- `Packable.pack(pattern, value, name, count=None)`.  The FieldRecord is
appended to `metas` first, unconditionally.  If `count` is set the call
returns with no byte appended.  Otherwise `struct.pack(pattern, value)` is
attempted: its chunk is appended to `chunks` on success, and a struct error
is re-raised as a struct error whose message carries the caller's name and
the field name.  The caller name the source recovers with `inspect` is the
explicit `caller_name` argument here. -/
def Packable.pack (self : Packable) (pattern : String) (value : Value)
    (name : String) (count : Option Int) (caller_name : String) : PackResult :=
  let meta : Meta := ⟨pattern, value, name, count⟩
  let self := { self with metas := self.metas ++ [meta] }
  match count with
  | some _ => ⟨self, none⟩
  | none =>
    match structPack pattern.data value with
    | .ok chunk => ⟨{ self with chunks := self.chunks ++ [chunk] }, none⟩
    | .error (.structError msg) =>
      ⟨self, some (.structError (packingErrorMessage msg caller_name name))⟩
    | .error e => ⟨self, some e⟩

/-- `Packable.data`: the concatenation of `chunks` in order. -/
def Packable.data (p : Packable) : List Nat :=
  p.chunks.flatten

/-- The possible arguments of `Packable.append`: an unnamed `Packable`, or
one of the named containers. -/
inductive Appendable where
  | packableArg (p : Packable)
  | functionArg (f : MetaBinFunction)
  | structArg (s : MetaBinStruct)
deriving DecidableEq, Repr

/-- `hasattr(arg, "name")`: `Packable` never assigns `name`; both container
classes assign it in `__init__` (to `None`), so `hasattr` is true for them. -/
def Appendable.hasNameAttr : Appendable → Bool
  | .packableArg _ => false
  | .functionArg _ => true
  | .structArg _ => true

/-- The message of the `TypeError` raised when appending a named object. -/
def namingConflictMessage : String :=
  "A name prevents a packable from being appended: Keep the packable separate if it is a struct so it can be its own tier in the output metadata."

/-- `Packable.append(packable)`.  An argument carrying a `name` attribute is
rejected up front with a `TypeError`, leaving the state untouched.  Otherwise
the source runs `self.chunks += packable.chunks` and then
`self.lines += packable.lines`; `chunks` is extended in place, after which
the load of `self.lines` raises `AttributeError` — no `Packable` attribute
`lines` exists (`metas` is "formerly lines"), so the `metas` merge the class
docstring promises never happens. -/
def Packable.append (self : Packable) (arg : Appendable) : PackResult :=
  match arg with
  | .packableArg p2 =>
    ⟨{ self with chunks := self.chunks ++ p2.chunks },
      some (.attributeError "lines")⟩
  | .functionArg _ => ⟨self, some (.typeError namingConflictMessage)⟩
  | .structArg _ => ⟨self, some (.typeError namingConflictMessage)⟩

/-- Modelled from the spec: the byte widths of the annotation-language
primitive tokens that `imhex_keywords` maps to — the "fixed width of the
type declared by pattern" in the spec's buffer/description invariant. -/
def imhexTypeWidth : String → Option Nat
  | "u8" => some 1
  | "s8" => some 1
  | "u16" => some 2
  | "s16" => some 2
  | "i32" => some 4
  | "u32" => some 4
  | "s64" => some 8
  | "u64" => some 8
  | "f16" => some 2
  | "f32" => some 4
  | "f64" => some 8
  | _ => none

/-- The two endianness marker characters of the table. -/
def isMarker (c : Char) : Bool :=
  c = '>' || c = '<'

/-- The primitive letters of the table (its keys other than the markers). -/
def isPrimitiveLetter (c : Char) : Bool :=
  c = 'B' || c = 'b' || c = 'H' || c = 'h' || c = 'i' || c = 'I' || c = 'l' ||
  c = 'L' || c = 'q' || c = 'Q' || c = 's' || c = 'S' || c = 'e' || c = 'f' ||
  c = 'd'

/-- Modelled from the spec's words (Data Model, TypeCode): a valid TypeCode
is an optional endianness marker followed by exactly one primitive letter of
the closed set.  Used only to compare the spec's validity notion with what
`chars_to_imhex` accepts. -/
def specValidTypeCodeL : List Char → Bool
  | [c] => isPrimitiveLetter c
  | [m, c] => isMarker m && isPrimitiveLetter c
  | _ => false

/-- The shapes made of endianness markers alone: a bare marker, or a marker
behind a marker.  These are not valid TypeCodes, yet every character is a
key of the table, so the translator accepts them. -/
def markerOnlyCodeL : List Char → Bool
  | [c] => isMarker c
  | [m, c] => isMarker m && isMarker c
  | _ => false

/-- One mutating core call on a `Packable`: a `pack` with any arguments, or
an `append` with any argument, each taken to the state it leaves behind
(also when it raises).  `meta_to_imhex`, `to_imhex` and `data` are pure
functions of the state in this embedding and step nothing. -/
inductive CoreStep : Packable → Packable → Prop
  | packStep (self : Packable) (pattern : String) (value : Value)
      (name : String) (count : Option Int) (caller_name : String) :
      CoreStep self (self.pack pattern value name count caller_name).state
  | appendStep (self : Packable) (arg : Appendable) :
      CoreStep self (self.append arg).state

/-- Any finite sequence of mutating core calls. -/
def CoreReach : Packable → Packable → Prop :=
  Relation.ReflTransGen CoreStep

/-- A character that is neither an endianness marker nor a primitive letter
is not a key of the table. -/
lemma imhex_keywords_eq_none (c : Char) (h1 : isMarker c = false)
    (h2 : isPrimitiveLetter c = false) : imhex_keywords c = none := by
  unfold imhex_keywords
  split <;> simp_all [isMarker, isPrimitiveLetter]

/-- One mutating core call never touches `bad_keys` or `exceptions`. -/
lemma coreStep_preserves_diagnostics {p q : Packable} (h : CoreStep p q) :
    q.bad_keys = p.bad_keys ∧ q.exceptions = p.exceptions := by
  cases h with
  | packStep pattern value name count caller_name =>
    unfold Packable.pack
    cases count with
    | some c => exact ⟨rfl, rfl⟩
    | none =>
      cases hsp : structPack pattern.data value with
      | ok chunk => simp [hsp]
      | error e => cases e <;> simp [hsp]
  | appendStep arg =>
    cases arg <;> exact ⟨rfl, rfl⟩

/-- Claim C1: when serialization of `value` under `pattern` fails, the
FieldRecord built from the four arguments is nevertheless in `metas` (it was
appended before packing was attempted), no chunk is appended to `chunks`,
and the raised struct error's message carries the field `name` and the
calling context's identifier. -/
theorem pack_records_meta_even_on_failure (self : Packable) (pattern : String)
    (value : Value) (name caller_name msg : String)
    (h : structPack pattern.data value = .error (.structError msg)) :
    (self.pack pattern value name Option.none caller_name).state.metas
        = self.metas ++ [⟨pattern, value, name, Option.none⟩]
    ∧ (self.pack pattern value name Option.none caller_name).state.chunks
        = self.chunks
    ∧ (self.pack pattern value name Option.none caller_name).error
        = some (.structError (packingErrorMessage msg caller_name name)) := by
  unfold Packable.pack
  simp [h]

/-- Witness for C1: packing 100000 under `"H"` overflows; the record stays,
no chunk is added, and the error names the field and the caller. -/
theorem pack_records_meta_even_on_failure_witness :
    (Packable.init.pack "H" (.pyInt 100000) "version" Option.none "main").state.metas
        = [⟨"H", .pyInt 100000, "version", Option.none⟩]
    ∧ (Packable.init.pack "H" (.pyInt 100000) "version" Option.none "main").state.chunks
        = []
    ∧ (Packable.init.pack "H" (.pyInt 100000) "version" Option.none "main").error
        = some (.structError
            (packingErrorMessage "argument out of range" "main" "version")) :=
  pack_records_meta_even_on_failure Packable.init "H" (.pyInt 100000)
    "version" "main" "argument out of range" rfl

/-- Claim C2, evaluated at the failing input: `pack("s", b"a", "x")`
succeeds and appends a 1-byte chunk (Python `struct`'s `s` is a char-bytes
code of default length 1), while the Type-Code Table declares `s` to be
`i32`, whose fixed width is 4 bytes — the table's own comment calls `s` a
size type, which Python's `struct` does not use that letter for.  The
claim's width equality therefore fails on the code. -/
theorem pack_char_code_width_mismatch :
    (Packable.init.pack "s" (.pyBytes [97]) "x" Option.none "main").error
        = Option.none
    ∧ (Packable.init.pack "s" (.pyBytes [97]) "x" Option.none "main").state.chunks
        = [[97]]
    ∧ (Packable.init.pack "s" (.pyBytes [97]) "x" Option.none "main").state.metas
        = [⟨"s", .pyBytes [97], "x", Option.none⟩]
    ∧ imhex_keywords 's' = some "i32"
    ∧ imhexTypeWidth "i32" = some 4
    ∧ [(97 : Nat)].length = 1 :=
  ⟨rfl, rfl, rfl, rfl, rfl, rfl⟩

/-- Claim C3, evaluated at the failing input: appending an unnamed Packable
holding one chunk and one record extends `chunks`, then raises
`AttributeError` on the nonexistent `lines` attribute, and `metas` is never
merged — the claimed post-state `metas = old ++ appended` does not hold. -/
theorem append_unnamed_raises_lines_attribute_error :
    (Packable.init.append
        (.packableArg ⟨[[7]], [⟨"B", .pyInt 7, "x", Option.none⟩], [], []⟩)).error
        = some (.attributeError "lines")
    ∧ (Packable.init.append
        (.packableArg ⟨[[7]], [⟨"B", .pyInt 7, "x", Option.none⟩], [], []⟩)).state.chunks
        = [[7]]
    ∧ (Packable.init.append
        (.packableArg ⟨[[7]], [⟨"B", .pyInt 7, "x", Option.none⟩], [], []⟩)).state.metas
        = []
    ∧ (Packable.init.append
        (.packableArg ⟨[[7]], [⟨"B", .pyInt 7, "x", Option.none⟩], [], []⟩)).state.metas
        ≠ Packable.init.metas ++ [⟨"B", .pyInt 7, "x", Option.none⟩] := by
  refine ⟨rfl, rfl, rfl, ?_⟩
  intro h
  simp [Packable.init, Packable.append] at h

/-- Claim C4: appending any argument that carries a `name` attribute (a
named container) fails with the naming-conflict `TypeError` and leaves the
Packable entirely unchanged. -/
theorem append_named_raises_naming_conflict (self : Packable)
    (arg : Appendable) (h : arg.hasNameAttr = true) :
    (self.append arg).error = some (.typeError namingConflictMessage)
    ∧ (self.append arg).state = self := by
  cases arg with
  | packableArg p => simp [Appendable.hasNameAttr] at h
  | functionArg f => exact ⟨rfl, rfl⟩
  | structArg s => exact ⟨rfl, rfl⟩

/-- Witness for C4: appending a fresh `MetaBinFunction` (its `__init__`
assigns `name`, so `hasattr` holds) is rejected and mutates nothing. -/
theorem append_named_raises_naming_conflict_witness :
    (Packable.init.append (.functionArg ⟨Option.none, []⟩)).error
        = some (.typeError namingConflictMessage)
    ∧ (Packable.init.append (.functionArg ⟨Option.none, []⟩)).state
        = Packable.init :=
  append_named_raises_naming_conflict Packable.init
    (.functionArg ⟨Option.none, []⟩) rfl

/-- Claim C5, evaluated at the failing inputs: `pack("H", 1000, "version")`
does append the 2-byte little-endian encoding of 1000, and `">I"` does
translate to `"be u32"`, but rendering either record raises
`AttributeError` — `meta_to_imhex` calls `value.replace`, an attribute
`int` values do not have — instead of producing the claimed lines
`u16 version @ "1000";` and `be u32 magic @ "3735928559";`. -/
theorem record_scenarios_render_attribute_error :
    (Packable.init.pack "H" (.pyInt 1000) "version" Option.none "main").state.chunks
        = [[232, 3]]
    ∧ (Packable.init.pack "H" (.pyInt 1000) "version" Option.none "main").error
        = Option.none
    ∧ (232 + 256 * 3 : Nat) = 1000
    ∧ Packable.meta_to_imhex ⟨"H", .pyInt 1000, "version", Option.none⟩
        = .error (.attributeError "replace")
    ∧ chars_to_imhex ">I" = .ok "be u32"
    ∧ (Packable.init.pack ">I" (.pyInt 3735928559) "magic" Option.none "main").state.chunks
        = [[222, 173, 190, 239]]
    ∧ Packable.meta_to_imhex ⟨">I", .pyInt 3735928559, "magic", Option.none⟩
        = .error (.attributeError "replace") :=
  ⟨rfl, rfl, rfl, rfl, rfl, rfl, rfl⟩

/-- Counterexample to claim C6: a `pack` call with `count=16` and the string
value `"xx"` records a meta whose rendering carries the `[16]` suffix AND
the value tooltip ` @ "xx"` — the tooltip is not suppressed for array
declarations, contrary to "never a value tooltip". -/
theorem array_record_value_tooltip_shown :
    (Packable.init.pack "B" (.pyStr "xx") "payload" (some 16) "main").state.metas
        = [⟨"B", .pyStr "xx", "payload", some 16⟩]
    ∧ (Packable.init.pack "B" (.pyStr "xx") "payload" (some 16) "main").state.chunks
        = []
    ∧ Packable.meta_to_imhex ⟨"B", .pyStr "xx", "payload", some 16⟩
        = .ok "u8 payload[16] @ \"xx\";" :=
  ⟨rfl, rfl, rfl⟩

/-- Claim C6 as amended: a `pack` call with `count` set appends no chunk and
raises nothing, and its record renders with the `[count]` suffix; the value
tooltip is omitted exactly when the value is `None` (the typical array
call), not unconditionally. -/
theorem array_record_no_chunk_count_suffix (self : Packable)
    (pattern : String) (value : Value) (name caller_name : String)
    (c : Int) (t : String) (ht : chars_to_imhex pattern = .ok t) :
    (self.pack pattern value name (some c) caller_name).state.chunks
        = self.chunks
    ∧ (self.pack pattern value name (some c) caller_name).error = Option.none
    ∧ (value = .pyNone → Packable.meta_to_imhex ⟨pattern, value, name, some c⟩
        = .ok (t ++ " " ++ name ++ "[" ++ toString c ++ "]" ++ ";")) := by
  refine ⟨rfl, rfl, fun hv => ?_⟩
  subst hv
  simp only [Packable.meta_to_imhex, ht]
  rfl

/-- Witness for the amended C6: `record("B", None, "payload", count=16)`
appends no chunk and renders as `u8 payload[16];` with no tooltip. -/
theorem array_record_no_chunk_count_suffix_witness :
    (Packable.init.pack "B" Value.pyNone "payload" (some 16) "main").state.chunks
        = []
    ∧ (Packable.init.pack "B" Value.pyNone "payload" (some 16) "main").error
        = Option.none
    ∧ (Value.pyNone = Value.pyNone →
        Packable.meta_to_imhex ⟨"B", Value.pyNone, "payload", some 16⟩
          = .ok ("u8" ++ " " ++ "payload" ++ "[" ++ toString (16 : Int) ++ "]" ++ ";")) :=
  array_record_no_chunk_count_suffix Packable.init "B" Value.pyNone
    "payload" "main" 16 "u8" rfl

/-- Counterexample to claim C7: `"<<"` is not a valid TypeCode (its second
character is an endianness marker, not a primitive letter), yet the
translator accepts it and returns the token string `"le le"` — both
characters are keys of the table, so neither lookup misses. -/
theorem double_marker_accepted :
    specValidTypeCodeL ['<', '<'] = false
    ∧ charsToImhexL ['<', '<'] = .ok "le le"
    ∧ chars_to_imhex "<<" = .ok "le le" :=
  ⟨rfl, rfl, rfl⟩

/-- Claim C7 as amended: every string that is not a valid TypeCode is
rejected with an error, except the shapes made of endianness markers alone
(a bare marker, or a marker following a marker, such as `"<<"`), which
translate to their table tokens because every character is a table key. -/
theorem invalid_typecode_rejected_unless_marker_only (cs : List Char)
    (hv : specValidTypeCodeL cs = false) (hm : markerOnlyCodeL cs = false) :
    ∃ e, charsToImhexL cs = .error e := by
  match cs with
  | [] => exact ⟨.notImplementedError [], rfl⟩
  | [c] =>
    have h1 : isMarker c = false := by simpa [markerOnlyCodeL] using hm
    have h2 : isPrimitiveLetter c = false := by
      simpa [specValidTypeCodeL] using hv
    refine ⟨.keyError c, ?_⟩
    simp [charsToImhexL, imhex_keywords_eq_none c h1 h2]
  | [c0, c1] =>
    by_cases hm0 : c0 = '>' ∨ c0 = '<'
    · have hm0b : isMarker c0 = true := by
        rcases hm0 with h | h <;> simp [isMarker, h]
      have h1 : isMarker c1 = false := by
        simp [markerOnlyCodeL, hm0b] at hm
        exact hm
      have h2 : isPrimitiveLetter c1 = false := by
        simp [specValidTypeCodeL, hm0b] at hv
        exact hv
      have hk0 : ∃ t0, imhex_keywords c0 = some t0 := by
        rcases hm0 with h | h <;> subst h
        · exact ⟨"be", rfl⟩
        · exact ⟨"le", rfl⟩
      rcases hk0 with ⟨t0, ht0⟩
      refine ⟨.keyError c1, ?_⟩
      simp [charsToImhexL, hm0, ht0, imhex_keywords_eq_none c1 h1 h2]
    · exact ⟨.notImplementedError [c0, c1], by simp [charsToImhexL, hm0]⟩
  | c0 :: c1 :: c2 :: rest =>
    exact ⟨.notImplementedError (c0 :: c1 :: c2 :: rest), rfl⟩

/-- Witness for the amended C7: `"Z"` is not a valid TypeCode, is not a
marker shape, and translating it errors (with a `KeyError`). -/
theorem invalid_typecode_rejected_unless_marker_only_witness :
    ∃ e, charsToImhexL ['Z'] = .error e :=
  invalid_typecode_rejected_unless_marker_only ['Z'] rfl rfl

/-- Claim C8: every pattern whose length is neither 1 nor
2-with-a-leading-endianness-marker is rejected with the translator's
`NotImplementedError` carrying the whole pattern — it is never decomposed,
whatever its characters. -/
theorem multi_part_pattern_not_implemented (cs : List Char)
    (h1 : cs.length ≠ 1)
    (h2 : ¬(cs.length = 2 ∧ (cs.headD ' ' = '>' ∨ cs.headD ' ' = '<'))) :
    charsToImhexL cs = .error (.notImplementedError cs) := by
  match cs with
  | [] => rfl
  | [c] => exact absurd rfl h1
  | [c0, c1] =>
    have hc : ¬(c0 = '>' ∨ c0 = '<') := fun hc => h2 ⟨rfl, hc⟩
    simp [charsToImhexL, hc]
  | c0 :: c1 :: c2 :: rest => rfl

/-- Witness for C8: the compound code `"10s"` fails with the translator's
`NotImplementedError`. -/
theorem multi_part_pattern_not_implemented_witness :
    charsToImhexL ['1', '0', 's']
        = .error (.notImplementedError ['1', '0', 's']) :=
  multi_part_pattern_not_implemented ['1', '0', 's'] (by decide) (by decide)

/-- Claim C9: no sequence of mutating core calls (`pack` with any
arguments, `append` with any argument, in any order, succeeding or raising)
ever changes `bad_keys` or `exceptions`; the pure operations
(`meta_to_imhex`, `to_imhex`, `data`) touch no state at all. -/
theorem core_ops_preserve_diagnostics (p q : Packable) (h : CoreReach p q) :
    q.bad_keys = p.bad_keys ∧ q.exceptions = p.exceptions := by
  unfold CoreReach at h
  induction h with
  | refl => exact ⟨rfl, rfl⟩
  | tail hpre step ih =>
    rcases coreStep_preserves_diagnostics step with ⟨e1, e2⟩
    exact ⟨e1.trans ih.1, e2.trans ih.2⟩

/-- Witness for C9: one `pack` call on a fresh Packable leaves `bad_keys`
and `exceptions` as the constructor made them. -/
theorem core_ops_preserve_diagnostics_witness :
    (Packable.init.pack "H" (.pyInt 7) "a" Option.none "m").state.bad_keys
        = Packable.init.bad_keys
    ∧ (Packable.init.pack "H" (.pyInt 7) "a" Option.none "m").state.exceptions
        = Packable.init.exceptions :=
  core_ops_preserve_diagnostics Packable.init
    (Packable.init.pack "H" (.pyInt 7) "a" Option.none "m").state
    (Relation.ReflTransGen.single
      (CoreStep.packStep Packable.init "H" (.pyInt 7) "a" Option.none "m"))

/-- Claim C10: `to_imhex` reads the singular attribute `meta`, which
`__init__` never assigns (it assigns `metas`) and no core operation ever
assigns either, so on every Packable the call raises `AttributeError`. -/
theorem to_imhex_always_attribute_error (p : Packable) :
    p.to_imhex = .error (.attributeError "meta") :=
  rfl

end Metabin
